import Mathlib

/-!
Verification of the kinetic-particles hand-tracking / particle-morphing core.

Embedded sources:
* `services/handTrackingService.ts` — landmark geometry (`distance`), the
  tension computation (`calculateTension`), gesture classification
  (`detectGesture`) and multi-hand aggregation (`processResults`).
* `App.tsx` — the gesture debounce state machine (300 ms confirm timer,
  1000 ms release timer, shape/color snapshot and restore).
* `components/ParticleSystem.tsx` — the shape generators
  (`GenerateParticles`, `generateTextPoints`) and the per-tick burst
  accumulator dynamics of the morph engine.
* `types.ts` — the declared `GestureType` union.

Modelling conventions: JavaScript numbers are modelled as `ℝ` (`Math.sqrt`
becomes `Real.sqrt`, and so on); the burst accumulators, which involve no
irrational functions, are modelled over `ℚ` so that they stay executable.
Where a claim depends on JavaScript's `NaN`/`Infinity` semantics of
division by zero, those are modelled explicitly by the `JSVal` type.
`Math.random()` is modelled by an oracle `ℕ → ℕ → ℝ` giving the value of
the j-th `Math.random()` call of loop iteration i.
-/

open scoped Classical

/-! ## Geometry (handTrackingService.ts) -/

/-- A MediaPipe `NormalizedLandmark`: three coordinates.  The source reads
`a.z || 0`; we model landmarks whose `z` is always present, which subsumes
the `undefined`-defaulting since an absent `z` is the same as `z = 0`. -/
structure Landmark where
  x : ℝ
  y : ℝ
  z : ℝ

/-- A `HandObservation`: exactly 21 landmarks, anatomically indexed. -/
abbrev Hand := Fin 21 → Landmark

/-- `HandTrackingService.distance`:
`Math.sqrt(dx * dx + dy * dy + dz * dz)`. -/
noncomputable def distance (a b : Landmark) : ℝ :=
  Real.sqrt ((a.x - b.x) * (a.x - b.x) + (a.y - b.y) * (a.y - b.y) +
    (a.z - b.z) * (a.z - b.z))

lemma distance_comm (a b : Landmark) : distance a b = distance b a := by
  unfold distance
  rw [show (a.x - b.x) * (a.x - b.x) + (a.y - b.y) * (a.y - b.y) +
      (a.z - b.z) * (a.z - b.z)
    = (b.x - a.x) * (b.x - a.x) + (b.y - a.y) * (b.y - a.y) +
      (b.z - a.z) * (b.z - a.z) by ring]

lemma distance_x_axis (x₁ x₂ y z : ℝ) (h : x₂ ≤ x₁) :
    distance ⟨x₁, y, z⟩ ⟨x₂, y, z⟩ = x₁ - x₂ := by
  unfold distance
  simp only
  rw [show (x₁ - x₂) * (x₁ - x₂) + (y - y) * (y - y) + (z - z) * (z - z)
      = (x₁ - x₂) ^ 2 by ring]
  exact Real.sqrt_sq (sub_nonneg.mpr h)

lemma distance_y_axis (y₁ y₂ x z : ℝ) (h : y₂ ≤ y₁) :
    distance ⟨x, y₁, z⟩ ⟨x, y₂, z⟩ = y₁ - y₂ := by
  unfold distance
  simp only
  rw [show (x - x) * (x - x) + (y₁ - y₂) * (y₁ - y₂) + (z - z) * (z - z)
      = (y₁ - y₂) ^ 2 by ring]
  exact Real.sqrt_sq (sub_nonneg.mpr h)

/-! ## Gesture classification (handTrackingService.ts, `detectGesture`) -/

/-- The gesture labels actually produced by the classifier, the aggregator
and the debouncer: the seven string literals occurring in the code.
(`types.ts` declares a smaller union; see `declaredGestureTypeValues`.) -/
inductive GestureType where
  | none
  | openHand
  | fist
  | victory
  | love
  | thumbs_up
  | point
deriving DecidableEq, Repr

/-- The string literal each gesture label stands for in the source. -/
def gestureName : GestureType → String
  | .none => "none"
  | .openHand => "open"
  | .fist => "fist"
  | .victory => "victory"
  | .love => "love"
  | .thumbs_up => "thumbs_up"
  | .point => "point"

/-- `src/types.ts` line 21:
`export type GestureType = 'none' | 'openHand | 'fist' | 'victory';` -/
def declaredGestureTypeValues : List String :=
  ["none", "open", "fist", "victory"]

/-- `HandTrackingService.detectGesture`, translated statement by statement
(the second, four-gesture version cited by the claims). -/
noncomputable def detectGesture (landmarks : Hand) : GestureType :=
  let wrist := landmarks 0
  let palmBase := landmarks 9
  let palmSize := distance wrist palmBase
  let indexTip := landmarks 8
  let indexPIP := landmarks 6
  let indexExtended := distance indexTip wrist > distance indexPIP wrist * 1.2
  let middleTip := landmarks 12
  let middlePIP := landmarks 10
  let middleExtended := distance middleTip wrist > distance middlePIP wrist * 1.2
  let ringTip := landmarks 16
  let ringPIP := landmarks 14
  let ringExtended := distance ringTip wrist > distance ringPIP wrist * 1.1
  let ringCurled := distance ringTip palmBase < palmSize * 1.2
  let pinkyTip := landmarks 20
  let pinkyPIP := landmarks 18
  let pinkyExtended := distance pinkyTip wrist > distance pinkyPIP wrist * 1.1
  let pinkyCurled := distance pinkyTip palmBase < palmSize * 1.2
  let thumbTip := landmarks 4
  let indexMCP := landmarks 5
  let thumbExtended := distance thumbTip indexMCP > palmSize * 0.6
  if indexExtended ∧ middleExtended ∧ ringCurled ∧ pinkyCurled then
    GestureType.victory
  else if thumbExtended ∧ indexExtended ∧ ¬middleExtended ∧ ¬ringExtended ∧
      pinkyExtended then
    GestureType.love
  else if thumbExtended ∧ ¬indexExtended ∧ ¬middleExtended ∧ ¬ringExtended ∧
      ¬pinkyExtended then
    GestureType.thumbs_up
  else if indexExtended ∧ ¬middleExtended ∧ ¬ringExtended ∧ ¬pinkyExtended then
    GestureType.point
  else
    GestureType.none

/-! Named versions of the finger predicates, as itemized in §4.1 of the
spec; used to state the priority-order theorem. -/

noncomputable def palmSizeOf (lm : Hand) : ℝ := distance (lm 0) (lm 9)

noncomputable def indexExtendedPred (lm : Hand) : Prop :=
  distance (lm 8) (lm 0) > distance (lm 6) (lm 0) * 1.2

noncomputable def middleExtendedPred (lm : Hand) : Prop :=
  distance (lm 12) (lm 0) > distance (lm 10) (lm 0) * 1.2

noncomputable def ringExtendedPred (lm : Hand) : Prop :=
  distance (lm 16) (lm 0) > distance (lm 14) (lm 0) * 1.1

noncomputable def ringCurledPred (lm : Hand) : Prop :=
  distance (lm 16) (lm 9) < palmSizeOf lm * 1.2

noncomputable def pinkyExtendedPred (lm : Hand) : Prop :=
  distance (lm 20) (lm 0) > distance (lm 18) (lm 0) * 1.1

noncomputable def pinkyCurledPred (lm : Hand) : Prop :=
  distance (lm 20) (lm 9) < palmSizeOf lm * 1.2

noncomputable def thumbExtendedPred (lm : Hand) : Prop :=
  distance (lm 4) (lm 5) > palmSizeOf lm * 0.6

noncomputable def victoryPred (lm : Hand) : Prop :=
  indexExtendedPred lm ∧ middleExtendedPred lm ∧ ringCurledPred lm ∧
    pinkyCurledPred lm

noncomputable def lovePred (lm : Hand) : Prop :=
  thumbExtendedPred lm ∧ indexExtendedPred lm ∧ ¬middleExtendedPred lm ∧
    ¬ringExtendedPred lm ∧ pinkyExtendedPred lm

noncomputable def thumbsUpPred (lm : Hand) : Prop :=
  thumbExtendedPred lm ∧ ¬indexExtendedPred lm ∧ ¬middleExtendedPred lm ∧
    ¬ringExtendedPred lm ∧ ¬pinkyExtendedPred lm

noncomputable def pointPred (lm : Hand) : Prop :=
  indexExtendedPred lm ∧ ¬middleExtendedPred lm ∧ ¬ringExtendedPred lm ∧
    ¬pinkyExtendedPred lm

/-! ## Tension (handTrackingService.ts, `calculateTension`) -/

set_option linter.unusedVariables false in
/-- `HandTrackingService.calculateTension`: the loop over the five
(tip, base) index pairs, translated with a fold.  The `baseToPalm`
binding is computed (as in the source) but never used, hence the
silenced linter. -/
noncomputable def calculateTension (landmarks : Hand) : ℝ :=
  let palmBase := landmarks 9
  let palmSize := distance (landmarks 0) palmBase
  let fingerTips : List (Fin 21) := [4, 8, 12, 16, 20]
  let fingerBases : List (Fin 21) := [2, 5, 9, 13, 17]
  let totalCurl := (fingerTips.zip fingerBases).foldl (fun acc p =>
    let tip := landmarks p.1
    let base := landmarks p.2
    let tipToPalm := distance tip palmBase
    let baseToPalm := distance base palmBase
    let extension := tipToPalm / palmSize
    let curl := max 0 (min 1 ((1.5 - extension) / 1))
    acc + curl) 0
  let avgCurl := totalCurl / 5
  max 0 (min 1 avgCurl)

/-- The per-finger curl exactly as §4.1 of the spec words it:
`extension = distance(tip, palmBase) / palmSize`,
`curl = clamp((1.5 − extension) / 1.0, 0, 1)`. -/
noncomputable def curlSpec (lm : Hand) (tip : Fin 21) : ℝ :=
  max 0 (min 1 ((1.5 - distance (lm tip) (lm 9) / palmSizeOf lm) / 1))

/-- The tension exactly as the spec words it: the mean of the five curls,
clamped to [0, 1]. -/
noncomputable def tensionSpec (lm : Hand) : ℝ :=
  max 0 (min 1 ((curlSpec lm 4 + curlSpec lm 8 + curlSpec lm 12 +
    curlSpec lm 16 + curlSpec lm 20) / 5))

/-! ## JavaScript number semantics for the division-by-zero analysis

The `ℝ` model above uses Lean's total division (`x / 0 = 0`), which matches
JavaScript only when the divisor is nonzero.  The claims about `palmSize == 0`
depend on IEEE-754 semantics (`0/0 = NaN`, `x/0 = ±Infinity`), so we model
those explicitly.  Signed zero is not modelled (no use below distinguishes
`-0`). -/

inductive JSVal where
  | num (x : ℝ)
  | inf
  | negInf
  | nan

noncomputable def jsNeg : JSVal → JSVal
  | .nan => .nan
  | .inf => .negInf
  | .negInf => .inf
  | .num a => .num (-a)

noncomputable def jsAdd : JSVal → JSVal → JSVal
  | .nan, _ => .nan
  | _, .nan => .nan
  | .inf, .negInf => .nan
  | .negInf, .inf => .nan
  | .inf, _ => .inf
  | _, .inf => .inf
  | .negInf, _ => .negInf
  | _, .negInf => .negInf
  | .num a, .num b => .num (a + b)

noncomputable def jsSub (a b : JSVal) : JSVal := jsAdd a (jsNeg b)

noncomputable def jsDiv : JSVal → JSVal → JSVal
  | .nan, _ => .nan
  | _, .nan => .nan
  | .inf, .inf => .nan
  | .inf, .negInf => .nan
  | .negInf, .inf => .nan
  | .negInf, .negInf => .nan
  | .inf, .num b => if b < 0 then .negInf else .inf
  | .negInf, .num b => if b < 0 then .inf else .negInf
  | .num _, .inf => .num 0
  | .num _, .negInf => .num 0
  | .num a, .num b =>
      if b = 0 then
        if a = 0 then .nan else if a < 0 then .negInf else .inf
      else .num (a / b)

/-- `Math.min`: `NaN` if either argument is `NaN`. -/
noncomputable def jsMin : JSVal → JSVal → JSVal
  | .nan, _ => .nan
  | _, .nan => .nan
  | .negInf, _ => .negInf
  | _, .negInf => .negInf
  | .inf, b => b
  | a, .inf => a
  | .num a, .num b => .num (min a b)

/-- `Math.max`: `NaN` if either argument is `NaN`. -/
noncomputable def jsMax : JSVal → JSVal → JSVal
  | .nan, _ => .nan
  | _, .nan => .nan
  | .inf, _ => .inf
  | _, .inf => .inf
  | .negInf, b => b
  | a, .negInf => a
  | .num a, .num b => .num (max a b)

set_option linter.unusedVariables false in
/-- `calculateTension` under JavaScript number semantics.  Landmark
coordinates and hence every `distance` are finite reals; only the divisions
and the arithmetic downstream of them can produce `Infinity`/`NaN`. -/
noncomputable def calculateTensionJS (landmarks : Hand) : JSVal :=
  let palmBase := landmarks 9
  let palmSize := distance (landmarks 0) palmBase
  let fingerTips : List (Fin 21) := [4, 8, 12, 16, 20]
  let fingerBases : List (Fin 21) := [2, 5, 9, 13, 17]
  let totalCurl := (fingerTips.zip fingerBases).foldl (fun acc p =>
    let tipToPalm := distance (landmarks p.1) palmBase
    let baseToPalm := distance (landmarks p.2) palmBase
    let extension := jsDiv (.num tipToPalm) (.num palmSize)
    let curl := jsMax (.num 0) (jsMin (.num 1)
      (jsDiv (jsSub (.num 1.5) extension) (.num 1)))
    jsAdd acc curl) (.num 0)
  jsMax (.num 0) (jsMin (.num 1) (jsDiv totalCurl (.num 5)))

/-- The morph engine's per-axis direction computation
(`ParticleSystem.useFrame`):
`const dirX = dist > 0.01 ? tx / dist : Math.random() - 0.5;`
(`rnd` stands for the `Math.random()` draw of that component). -/
noncomputable def fallbackDir (t dist rnd : ℝ) : ℝ :=
  if dist > 0.01 then t / dist else rnd - 0.5

/-! ## Multi-hand aggregation (handTrackingService.ts, `processResults`) -/

/-- The `HandState` record published through `onUpdate`. -/
structure HandState where
  tension : ℝ
  detected : Bool
  leftHand : Bool
  rightHand : Bool
  gesture : GestureType

/-- One entry of a detection tick: `multiHandLandmarks[i]` together with
`multiHandedness?.[i]?.label` (absent label modelled as `none`). -/
structure DetectedHand where
  landmarks : Hand
  handedness : Option String

/-- The loop state of `processResults`. -/
structure AggAcc where
  totalTension : ℝ
  leftHand : Bool
  rightHand : Bool
  detectedGesture : GestureType

/-- One iteration of the `processResults` loop. -/
noncomputable def processHand (acc : AggAcc) (h : DetectedHand) : AggAcc :=
  let acc1 := if h.handedness = some "Left" then { acc with rightHand := true }
              else { acc with leftHand := true }
  let acc2 := { acc1 with
    totalTension := acc1.totalTension + calculateTension h.landmarks }
  let g := detectGesture h.landmarks
  if g ≠ GestureType.none then { acc2 with detectedGesture := g } else acc2

/-- `HandTrackingService.processResults`, for one detection tick. -/
noncomputable def processResults (hands : List DetectedHand) : HandState :=
  if hands.isEmpty then
    { tension := 0, detected := false, leftHand := false, rightHand := false,
      gesture := GestureType.none }
  else
    let acc := hands.foldl processHand ⟨0, false, false, GestureType.none⟩
    let avgTension := acc.totalTension / (hands.length : ℝ)
    let finalGesture :=
      if acc.detectedGesture = GestureType.none then
        if avgTension > 0.7 then GestureType.fist
        else if avgTension < 0.3 then GestureType.openHand
        else GestureType.none
      else acc.detectedGesture
    { tension := avgTension, detected := true, leftHand := acc.leftHand,
      rightHand := acc.rightHand, gesture := finalGesture }

/-- The specific gesture the loop ends up with: because each non-`none`
per-hand gesture overwrites the accumulator, it is the last one in scan
order. -/
noncomputable def lastSpecificGesture (gs : List GestureType) : Option GestureType :=
  gs.reverse.find? (fun g => g != GestureType.none)

lemma processHand_gesture (acc : AggAcc) (h : DetectedHand) :
    (processHand acc h).detectedGesture =
      if detectGesture h.landmarks ≠ GestureType.none then
        detectGesture h.landmarks
      else acc.detectedGesture := by
  simp only [processHand]
  split_ifs <;> rfl

lemma processHand_tension (acc : AggAcc) (h : DetectedHand) :
    (processHand acc h).totalTension =
      acc.totalTension + calculateTension h.landmarks := by
  simp only [processHand]
  split_ifs <;> rfl

lemma foldl_processHand_gesture (hands : List DetectedHand) :
    ∀ acc : AggAcc,
      (hands.foldl processHand acc).detectedGesture =
        (hands.map fun h => detectGesture h.landmarks).foldl
          (fun a g => if g ≠ GestureType.none then g else a)
          acc.detectedGesture := by
  induction hands with
  | nil => intro acc; rfl
  | cons h t ih =>
      intro acc
      rw [List.foldl_cons, List.map_cons, List.foldl_cons, ih,
        processHand_gesture]

lemma foldl_processHand_tension (hands : List DetectedHand) :
    ∀ acc : AggAcc,
      (hands.foldl processHand acc).totalTension =
        acc.totalTension +
          (hands.map fun h => calculateTension h.landmarks).sum := by
  induction hands with
  | nil => intro acc; simp
  | cons h t ih =>
      intro acc
      rw [List.foldl_cons, List.map_cons, List.sum_cons, ih,
        processHand_tension, add_assoc]

lemma foldl_lastGesture (gs : List GestureType) :
    ∀ acc : GestureType,
      gs.foldl (fun a g => if g ≠ GestureType.none then g else a) acc =
        (gs.reverse.find? (fun g => g != GestureType.none)).getD acc := by
  induction gs using List.reverseRecOn with
  | nil => intro acc; rfl
  | append_singleton t g ih =>
      intro acc
      rw [List.foldl_append, List.foldl_cons, List.foldl_nil,
        List.reverse_append, List.reverse_singleton, List.singleton_append,
        List.find?_cons]
      by_cases hg : g = GestureType.none
      · subst hg
        have hp : (GestureType.none != GestureType.none) = false := by decide
        rw [hp, if_neg (fun h => h rfl)]
        exact ih acc
      · have hp : (g != GestureType.none) = true := bne_iff_ne.mpr hg
        rw [hp, if_pos hg]
        rfl

/-! ## Gesture debouncer (App.tsx, the gesture effect)

The React effect at App.tsx lines 450–512 runs whenever one of its
dependencies (`handData.gesture`, `currentGesture`, `activeShape`,
`particleColor`, `previousShape`, `previousColor`) changes.  Each run first
executes the previous run's cleanup, which clears `gestureTimerRef`
(`clearTimeout`); the body then acts only when the raw gesture differs from
`currentGesture`.  `setTimeout` closures capture the values of `gesture`,
`currentGesture`, `activeShape`, `particleColor`, `previousShape` and
`previousColor` at arming time; both behaviors are modelled explicitly.
The single `gestureTimerRef` slot together with the unconditional
`clearTimeout` before each `setTimeout` means at most one timer is ever
scheduled, which the model reflects with an `Option` field. -/

/-- `ParticleShape` from types.ts. -/
inductive ParticleShape where
  | sphere
  | heart
  | flower
  | saturn
  | buddha
  | fireworks
  | galaxy
  | dna
  | text
deriving DecidableEq, Repr

/-- A pending `setTimeout` callback with its captured values. -/
inductive TimerKind where
  /-- The 300 ms confirm callback: captures the raw `gesture`, the
  `currentGesture`, `activeShape` and `particleColor` seen at arming. -/
  | confirm (g capturedCurrent : GestureType)
      (capturedShape : ParticleShape) (capturedColor : String)
  /-- The 1000 ms release callback: captures `previousShape` and
  `previousColor` seen at arming. -/
  | release (capturedPrevShape : ParticleShape) (capturedPrevColor : String)
deriving DecidableEq, Repr

structure PendingTimer where
  deadline : ℕ
  kind : TimerKind
deriving DecidableEq, Repr

/-- The App state touched by the gesture effect.  `raw` is
`handData.gesture`; times are in milliseconds. -/
structure AppState where
  raw : GestureType
  current : GestureType
  activeShape : ParticleShape
  particleColor : String
  previousShape : ParticleShape
  previousColor : String
  timer : Option PendingTimer
deriving DecidableEq, Repr

/-- `const specialGestures = ['victory', 'love', 'thumbs_up', 'point'];` -/
def specialGestures : List GestureType :=
  [GestureType.victory, GestureType.love, GestureType.thumbs_up,
    GestureType.point]

/-- `specialGestures.includes(g)`. -/
def isSpecial (g : GestureType) : Bool := specialGestures.contains g

/-- The `switch (gesture)` applying the fixed shape+color mapping of a
special gesture (no case for the base gestures, which leave the state
unchanged). -/
def applyGestureEffect (g : GestureType) (s : AppState) : AppState :=
  match g with
  | GestureType.victory =>
      { s with activeShape := ParticleShape.text, particleColor := "#ffd700" }
  | GestureType.love =>
      { s with activeShape := ParticleShape.heart, particleColor := "#ec4899" }
  | GestureType.thumbs_up =>
      { s with activeShape := ParticleShape.fireworks,
               particleColor := "#ef4444" }
  | GestureType.point =>
      { s with activeShape := ParticleShape.saturn,
               particleColor := "#06b6d4" }
  | _ => s

/-- The body of a `setTimeout` callback, using the values captured at
arming time. -/
def fireCallback (k : TimerKind) (s : AppState) : AppState :=
  match k with
  | TimerKind.confirm g capturedCurrent capturedShape capturedColor =>
      let s1 := if isSpecial capturedCurrent then s
        else { s with previousShape := capturedShape,
                      previousColor := capturedColor }
      applyGestureEffect g { s1 with current := g }
  | TimerKind.release pShape pColor =>
      { s with current := GestureType.none, activeShape := pShape,
               particleColor := pColor }

/-- The effect body (the code inside `useEffect` after the cleanup):
only acts when the raw gesture differs from `currentGesture`; arms the
300 ms confirm timer for a special raw gesture, the 1000 ms release timer
when leaving a committed special gesture, and otherwise applies the base
transition immediately. -/
def effectBody (now : ℕ) (s : AppState) : AppState :=
  if s.raw = s.current then s
  else if isSpecial s.raw then
    { s with timer := some ⟨now + 300,
        TimerKind.confirm s.raw s.current s.activeShape s.particleColor⟩ }
  else if isSpecial s.current then
    { s with timer := some ⟨now + 1000,
        TimerKind.release s.previousShape s.previousColor⟩ }
  else
    { s with current := s.raw }

/-- One effect run: the previous run's cleanup (`clearTimeout`, modelled by
dropping the pending timer) followed by the body.  A second, cascaded run
triggered by the body's own state updates is always the identity (after the
immediate branch `raw = current` holds and the timer is already clear), so
one application models a full cascade. -/
def effectRun (now : ℕ) (s : AppState) : AppState :=
  effectBody now { s with timer := Option.none }

/-- An external change of `handData.gesture` to `g` at time `now`.  If the
value does not actually change, React re-renders with equal dependencies
and the effect does not re-run. -/
def rawGestureEvent (now : ℕ) (g : GestureType) (s : AppState) : AppState :=
  if g = s.raw then s else effectRun now { s with raw := g }

/-- Timer expiry check at time `now`: if a timer is pending and due, its
callback runs, followed by the effect re-run its state updates trigger. -/
def fireDue (now : ℕ) (s : AppState) : AppState :=
  match s.timer with
  | some tm =>
      if tm.deadline ≤ now then
        effectRun now (fireCallback tm.kind { s with timer := Option.none })
      else s
  | Option.none => s

/-- Initial state: `currentGesture = 'none'`, sphere shape, green color. -/
def initAppState : AppState :=
  { raw := GestureType.none, current := GestureType.none,
    activeShape := ParticleShape.sphere, particleColor := "#4ade80",
    previousShape := ParticleShape.sphere, previousColor := "#4ade80",
    timer := Option.none }

/-- Spec-side mapping table (§4.3): shape applied on confirming a special
gesture.  Only the four special gestures are ever looked up. -/
def gestureShape : GestureType → ParticleShape
  | GestureType.victory => ParticleShape.text
  | GestureType.love => ParticleShape.heart
  | GestureType.thumbs_up => ParticleShape.fireworks
  | GestureType.point => ParticleShape.saturn
  | _ => ParticleShape.sphere

/-- Spec-side mapping table (§4.3): color applied on confirming a special
gesture. -/
def gestureColor : GestureType → String
  | GestureType.victory => "#ffd700"
  | GestureType.love => "#ec4899"
  | GestureType.thumbs_up => "#ef4444"
  | GestureType.point => "#06b6d4"
  | _ => "#4ade80"

/-- The state after a confirmed special-gesture excursion step: raw gesture
`g` arrives at `t0`, is held, and the confirm timer fires by time `t1`. -/
def afterConfirm (s : AppState) (t0 t1 : ℕ) (g : GestureType) : AppState :=
  fireDue t1 (rawGestureEvent t0 g s)

/-- The state after the release step: raw gesture `n` arrives at `t1` and
the release timer fires at `t1 + 1000`. -/
def afterRelease (sC : AppState) (t1 : ℕ) (n : GestureType) : AppState :=
  fireDue (t1 + 1000) (rawGestureEvent t1 n sC)

/-! ## Morph engine burst accumulators (ParticleSystem.tsx, `useFrame`)

Steps 1–4 of the full (non-text) mode tick: tension velocity, rapid-opening
burst accumulation with caps, shockwave growth, exponential decay.  None of
these involve irrational functions, so they are modelled over `ℚ` and stay
executable. -/

structure BurstAccums where
  tensionVelocity : ℚ
  burstEnergy : ℚ
  shockwaveRadius : ℚ
  explosionPhase : ℚ
  cumulativeExplosion : ℚ
  prevTension : ℚ
deriving DecidableEq, Repr

/-- The refs all start at 0 (`useRef(0)`); `prevTensionRef` starts at the
initial `tension` prop, which is 0 at mount (`smoothTension` starts at 0). -/
def initBurstAccums : BurstAccums :=
  { tensionVelocity := 0, burstEnergy := 0, shockwaveRadius := 0,
    explosionPhase := 0, cumulativeExplosion := 0, prevTension := 0 }

/-- One full-mode tick of the scalar accumulators, statement by statement:
`tensionDelta`/`tensionVelocity` update, rapid-opening detection and capped
accumulation, shockwave expansion while `burstEnergy > 0.5`, then the four
decay multiplications. -/
def tickAccums (tension delta : ℚ) (a : BurstAccums) : BurstAccums :=
  let tensionDelta := tension - a.prevTension
  let tv := a.tensionVelocity * 0.85 + tensionDelta * 15
  let isOpening := tensionDelta < -0.015
  let openingSpeed := |min tensionDelta 0|
  let b1 := if isOpening then min (a.burstEnergy + openingSpeed * 25) 5
            else a.burstEnergy
  let e1 := if isOpening then min (a.explosionPhase + openingSpeed * 30) 1
            else a.explosionPhase
  let c1 := if isOpening then min (a.cumulativeExplosion + openingSpeed * 10) 2
            else a.cumulativeExplosion
  let s1 := if b1 > 0.5 then a.shockwaveRadius + delta * 15 * b1
            else a.shockwaveRadius
  { tensionVelocity := tv
    burstEnergy := b1 * 0.92
    explosionPhase := e1 * 0.95
    cumulativeExplosion := c1 * 0.98
    shockwaveRadius := s1 * 0.96
    prevTension := tension }

/-- The invariant of claim C7: `burstEnergy ∈ [0,5]`,
`explosionPhase ∈ [0,1]`, `cumulativeExplosion ∈ [0,2]`,
`shockwaveRadius ≥ 0`. -/
def accumsInv (a : BurstAccums) : Prop :=
  0 ≤ a.burstEnergy ∧ a.burstEnergy ≤ 5 ∧
  0 ≤ a.explosionPhase ∧ a.explosionPhase ≤ 1 ∧
  0 ≤ a.cumulativeExplosion ∧ a.cumulativeExplosion ≤ 2 ∧
  0 ≤ a.shockwaveRadius

/-! ## Shape library (ParticleSystem.tsx, `GenerateParticles` and
`generateTextPoints`)

`Math.random()` is modelled by an oracle: `rnd : ℕ → ℝ` is the stream of
draws of a single loop iteration (`rnd j` is the j-th call of that
iteration), and a generator run receives `oracle : ℕ → ℕ → ℝ`, iteration
first.  `Math.random()` only returns values in `[0, 1)`; the oracle type is
total, and where the source indexes an array by `Math.floor(r * 5)` the
model uses a defaulted lookup whose default branch is unreachable for
oracles in range. -/

/-- A generated 3D point (one `(x, y, z)` triple of the positions array). -/
structure Pt where
  x : ℝ
  y : ℝ
  z : ℝ

/-- `Math.cbrt`, totalized over ℝ the way JavaScript computes it (odd,
real cube root). -/
noncomputable def jsCbrt (v : ℝ) : ℝ :=
  if v < 0 then -((-v) ^ ((1 : ℝ) / 3)) else v ^ ((1 : ℝ) / 3)

/-- `case ParticleShape.SPHERE`. -/
noncomputable def spherePoint (rnd : ℕ → ℝ) : Pt :=
  let r := 4 * jsCbrt (rnd 0)
  let theta := rnd 1 * 2 * Real.pi
  let phi := Real.arccos (2 * rnd 2 - 1)
  ⟨r * Real.sin phi * Real.cos theta, r * Real.sin phi * Real.sin theta,
    r * Real.cos phi⟩

/-- `case ParticleShape.HEART`. -/
noncomputable def heartPoint (rnd : ℕ → ℝ) : Pt :=
  let t := rnd 0 * Real.pi * 2
  let r := rnd 1
  let hx := 16 * Real.sin t ^ 3 * 0.25
  let hy := (13 * Real.cos t - 5 * Real.cos (2 * t) - 2 * Real.cos (3 * t) -
    Real.cos (4 * t)) * 0.25
  let hz := (rnd 2 - 0.5) * 2
  ⟨hx * r, hy * r, hz * r⟩

/-- `case ParticleShape.FLOWER`. -/
noncomputable def flowerPoint (rnd : ℕ → ℝ) : Pt :=
  let petals : ℝ := 6
  let theta := rnd 0 * 2 * Real.pi
  let rMax := Real.cos (petals * theta) + 2
  let r := rnd 1 * rMax * 1.5
  if rnd 3 < 0.2 then
    let cr := rnd 4 * 1
    let ctheta := rnd 5 * 2 * Real.pi
    let cphi := Real.arccos (2 * rnd 6 - 1)
    ⟨cr * Real.sin cphi * Real.cos ctheta, cr * Real.sin cphi * Real.sin ctheta,
      cr * Real.cos cphi⟩
  else
    ⟨r * Real.cos theta, r * Real.sin theta, (rnd 2 - 0.5) * 1.5⟩

/-- `case ParticleShape.SATURN`. -/
noncomputable def saturnPoint (rnd : ℕ → ℝ) : Pt :=
  if rnd 0 < 0.6 then
    let r := 2 * jsCbrt (rnd 1)
    let theta := rnd 2 * 2 * Real.pi
    let phi := Real.arccos (2 * rnd 3 - 1)
    ⟨r * Real.sin phi * Real.cos theta,
      r * Real.sin phi * Real.sin theta * 0.9, r * Real.cos phi⟩
  else
    let ringRadius := 3 + rnd 1 * 1.5
    let ringTheta := rnd 2 * 2 * Real.pi
    let ringHeight := (rnd 3 - 0.5) * 0.15
    ⟨ringRadius * Real.cos ringTheta, ringHeight,
      ringRadius * Real.sin ringTheta⟩

/-- `case ParticleShape.BUDDHA`. -/
noncomputable def buddhaPoint (rnd : ℕ → ℝ) : Pt :=
  let sect := rnd 0
  if sect < 0.25 then
    let r := 1 * jsCbrt (rnd 1)
    let theta := rnd 2 * 2 * Real.pi
    let phi := Real.arccos (2 * rnd 3 - 1)
    ⟨r * Real.sin phi * Real.cos theta * 0.8,
      r * Real.sin phi * Real.sin theta * 1 + 3, r * Real.cos phi * 0.8⟩
  else if sect < 0.5 then
    let r := 1.5 * jsCbrt (rnd 1)
    let theta := rnd 2 * 2 * Real.pi
    let phi := Real.arccos (2 * rnd 3 - 1)
    ⟨r * Real.sin phi * Real.cos theta,
      r * Real.sin phi * Real.sin theta * 1.5 + 0.5, r * Real.cos phi * 0.8⟩
  else if sect < 0.7 then
    let r := 2 * jsCbrt (rnd 1)
    let theta := rnd 2 * 2 * Real.pi
    ⟨r * Real.cos theta, -1.5 + rnd 3 * 0.5, r * Real.sin theta * 0.4⟩
  else
    let ringRadius := 1.5 + rnd 1 * 0.3
    let ringTheta := rnd 2 * 2 * Real.pi
    ⟨ringRadius * Real.cos ringTheta,
      3 + ringRadius * Real.sin ringTheta * 0.3, (rnd 3 - 0.5) * 0.2⟩

/-- The five `burstCenters` of the fireworks shape. -/
noncomputable def burstCenters : List Pt :=
  [⟨0, 2, 0⟩, ⟨-2, 1, 1⟩, ⟨2, 0.5, -1⟩, ⟨-1, -0.5, -1.5⟩, ⟨1.5, -1, 1⟩]

/-- `case ParticleShape.FIREWORKS`.  `Math.floor(Math.random() * 5)` is in
`0..4` for in-range draws; the defaulted lookup's fallback is unreachable
then. -/
noncomputable def fireworksPoint (rnd : ℕ → ℝ) : Pt :=
  let burstPoint := (⌊rnd 0 * 5⌋).toNat
  let center := burstCenters.getD burstPoint ⟨0, 0, 0⟩
  let r := rnd 1 * 2
  let theta := rnd 2 * 2 * Real.pi
  let phi := Real.arccos (2 * rnd 3 - 1)
  let x := center.x + r * Real.sin phi * Real.cos theta
  let y := center.y + r * Real.sin phi * Real.sin theta
  let z := center.z + r * Real.cos phi
  if rnd 4 < 0.3 then ⟨x, y - rnd 5 * 1.5, z⟩ else ⟨x, y, z⟩

/-- `case ParticleShape.GALAXY` (uses the loop index `i`). -/
noncomputable def galaxyPoint (i : ℕ) (rnd : ℕ → ℝ) : Pt :=
  let branches : ℕ := 4
  let radius := rnd 0 * 5
  let spinAngle := radius * 2
  let branchAngle := ((i % branches : ℕ) : ℝ) / (branches : ℝ) * Real.pi * 2
  let randomX := rnd 1 ^ 3 * (if rnd 2 < 0.5 then 1 else -1) * 0.5
  let randomY := rnd 3 ^ 3 * (if rnd 4 < 0.5 then 1 else -1) * 0.3
  let randomZ := rnd 5 ^ 3 * (if rnd 6 < 0.5 then 1 else -1) * 0.5
  if rnd 7 < 0.15 then
    let bulgeR := rnd 8 * 1
    let bulgeTheta := rnd 9 * 2 * Real.pi
    let bulgePhi := Real.arccos (2 * rnd 10 - 1)
    ⟨bulgeR * Real.sin bulgePhi * Real.cos bulgeTheta,
      bulgeR * Real.sin bulgePhi * Real.sin bulgeTheta * 0.3,
      bulgeR * Real.cos bulgePhi⟩
  else
    ⟨Real.cos (branchAngle + spinAngle) * radius + randomX, randomY,
      Real.sin (branchAngle + spinAngle) * radius + randomZ⟩

/-- `case ParticleShape.DNA` (uses the loop index `i` and `count`). -/
noncomputable def dnaPoint (i count : ℕ) (rnd : ℕ → ℝ) : Pt :=
  let t := ((i : ℝ) / (count : ℝ)) * Real.pi * 8
  let helixRadius : ℝ := 1.5
  let x0 := if i % 2 = 0 then helixRadius * Real.cos t
            else helixRadius * Real.cos (t + Real.pi)
  let z0 := if i % 2 = 0 then helixRadius * Real.sin t
            else helixRadius * Real.sin (t + Real.pi)
  let y0 := ((i : ℝ) / (count : ℝ) - 0.5) * 10
  let x1 := if rnd 0 < 0.1 then
      let barT := rnd 1 * Real.pi
      helixRadius * Real.cos t * (1 - barT / Real.pi) +
        helixRadius * Real.cos (t + Real.pi) * (barT / Real.pi)
    else x0
  let z1 := if rnd 0 < 0.1 then
      let barT := rnd 1 * Real.pi
      helixRadius * Real.sin t * (1 - barT / Real.pi) +
        helixRadius * Real.sin (t + Real.pi) * (barT / Real.pi)
    else z0
  ⟨x1 + (rnd 2 - 0.5) * 0.2, y0 + (rnd 3 - 0.5) * 0.2,
    z1 + (rnd 4 - 0.5) * 0.2⟩

/-- One iteration of the `generateTextPoints` assignment loop.  `pixels`
is the list of retained foreground pixel coordinates produced by the
canvas scan (the canvas rasterization itself is a DOM collaborator; its
output is this list).  With pixels found, the pixel is chosen cyclically
(`textPixels[i % textPixels.length]`) and jittered; with none, the
deterministic grid fallback fills the point. -/
noncomputable def textPoint (pixels : List (ℕ × ℕ)) (i : ℕ)
    (rnd : ℕ → ℝ) : Pt :=
  -- width = 600, height = 150, scale = 0.035, offsetX = 300, offsetY = 75
  if pixels.length > 0 then
    let pixel := pixels.getD (i % pixels.length) (0, 0)
    let z := (rnd 0 - 0.5) * 0.2
    let jitterX := (rnd 1 - 0.5) * 0.05
    let jitterY := (rnd 2 - 0.5) * 0.05
    ⟨((pixel.1 : ℝ) - 300) * 0.035 + jitterX,
      -((pixel.2 : ℝ) - 75) * 0.035 + jitterY, z⟩
  else
    let col := i % 20
    let row := (i / 20) % 10
    ⟨((col : ℝ) - 10) * 0.3, ((row : ℝ) - 5) * 0.3, 0⟩

/-- `generateTextPoints`: the assignment loop over `count` points. -/
noncomputable def generateTextPoints (pixels : List (ℕ × ℕ)) (count : ℕ)
    (oracle : ℕ → ℕ → ℝ) : List Pt :=
  (List.range count).map fun i => textPoint pixels i (oracle i)

/-- `GenerateParticles`: the text shape goes through `generateTextPoints`;
every other shape fills the positions array with its per-shape formula.
The `.text` match arm below is unreachable (guarded by the outer `if`) and
mirrors the early return of the source. -/
noncomputable def generateParticles (count : ℕ) (shape : ParticleShape)
    (pixels : List (ℕ × ℕ)) (oracle : ℕ → ℕ → ℝ) : List Pt :=
  if shape = ParticleShape.text then generateTextPoints pixels count oracle
  else
    (List.range count).map fun i =>
      match shape with
      | ParticleShape.sphere => spherePoint (oracle i)
      | ParticleShape.heart => heartPoint (oracle i)
      | ParticleShape.flower => flowerPoint (oracle i)
      | ParticleShape.saturn => saturnPoint (oracle i)
      | ParticleShape.buddha => buddhaPoint (oracle i)
      | ParticleShape.fireworks => fireworksPoint (oracle i)
      | ParticleShape.galaxy => galaxyPoint i (oracle i)
      | ParticleShape.dna => dnaPoint i count (oracle i)
      | ParticleShape.text => ⟨0, 0, 0⟩

/-! ## Concrete landmark sets

Hands are laid out on the coordinate axes so that every distance the
classifier reads is an exact integer: wrist at the origin, palm base
(landmark 9) at `(0,1,0)` (so `palmSize = 1`), finger tips/PIPs on the
axes. -/

/-- All 21 landmarks at the origin (degenerate hand, `palmSize = 0`). -/
noncomputable def zeroHand : Hand := fun _ => ⟨0, 0, 0⟩

/-- A hand satisfying the victory predicate: index and middle far from the
wrist, ring and pinky tips on the palm base. -/
noncomputable def victoryHand : Hand := fun i =>
  if i.val = 6 then ⟨1, 0, 0⟩
  else if i.val = 8 then ⟨2, 0, 0⟩
  else if i.val = 9 then ⟨0, 1, 0⟩
  else if i.val = 10 then ⟨1, 0, 0⟩
  else if i.val = 12 then ⟨0, 2, 0⟩
  else if i.val = 16 then ⟨0, 1, 0⟩
  else if i.val = 20 then ⟨0, 1, 0⟩
  else ⟨0, 0, 0⟩

/-- A hand satisfying the point predicate: only the index extended. -/
noncomputable def pointHand : Hand := fun i =>
  if i.val = 6 then ⟨1, 0, 0⟩
  else if i.val = 8 then ⟨2, 0, 0⟩
  else if i.val = 9 then ⟨0, 1, 0⟩
  else if i.val = 10 then ⟨1, 0, 0⟩
  else if i.val = 12 then ⟨0, 1, 0⟩
  else if i.val = 14 then ⟨1, 0, 0⟩
  else if i.val = 16 then ⟨0, 1, 0⟩
  else if i.val = 18 then ⟨1, 0, 0⟩
  else if i.val = 20 then ⟨0, 1, 0⟩
  else ⟨0, 0, 0⟩

/-- A hand satisfying the love predicate: thumb, index and pinky extended,
middle and ring not. -/
noncomputable def loveHand : Hand := fun i =>
  if i.val = 4 then ⟨5, 0, 0⟩
  else if i.val = 5 then ⟨3, 0, 0⟩
  else if i.val = 6 then ⟨1, 0, 0⟩
  else if i.val = 8 then ⟨2, 0, 0⟩
  else if i.val = 9 then ⟨0, 1, 0⟩
  else if i.val = 10 then ⟨1, 0, 0⟩
  else if i.val = 12 then ⟨0, 1, 0⟩
  else if i.val = 14 then ⟨1, 0, 0⟩
  else if i.val = 16 then ⟨0, 1, 0⟩
  else if i.val = 18 then ⟨1, 0, 0⟩
  else if i.val = 20 then ⟨0, 2, 0⟩
  else ⟨0, 0, 0⟩

lemma distance_self (a : Landmark) : distance a a = 0 := by
  unfold distance
  simp

/-! Classifier evaluation on the concrete hands. -/

lemma palmSizeOf_victoryHand : palmSizeOf victoryHand = 1 := by
  have e0 : victoryHand 0 = (⟨0, 0, 0⟩ : Landmark) := rfl
  have e9 : victoryHand 9 = (⟨0, 1, 0⟩ : Landmark) := rfl
  unfold palmSizeOf
  rw [e0, e9, distance_comm, distance_y_axis 1 0 0 0 (by norm_num)]
  norm_num

lemma victoryPred_victoryHand : victoryPred victoryHand := by
  have e0 : victoryHand 0 = (⟨0, 0, 0⟩ : Landmark) := rfl
  have e6 : victoryHand 6 = (⟨1, 0, 0⟩ : Landmark) := rfl
  have e8 : victoryHand 8 = (⟨2, 0, 0⟩ : Landmark) := rfl
  have e9 : victoryHand 9 = (⟨0, 1, 0⟩ : Landmark) := rfl
  have e10 : victoryHand 10 = (⟨1, 0, 0⟩ : Landmark) := rfl
  have e12 : victoryHand 12 = (⟨0, 2, 0⟩ : Landmark) := rfl
  have e16 : victoryHand 16 = (⟨0, 1, 0⟩ : Landmark) := rfl
  have e20 : victoryHand 20 = (⟨0, 1, 0⟩ : Landmark) := rfl
  refine ⟨?_, ?_, ?_, ?_⟩
  · unfold indexExtendedPred
    rw [e8, e6, e0, distance_x_axis 2 0 0 0 (by norm_num),
      distance_x_axis 1 0 0 0 (by norm_num)]
    norm_num
  · unfold middleExtendedPred
    rw [e12, e10, e0, distance_y_axis 2 0 0 0 (by norm_num),
      distance_x_axis 1 0 0 0 (by norm_num)]
    norm_num
  · unfold ringCurledPred
    rw [e16, e9, palmSizeOf_victoryHand, distance_y_axis 1 1 0 0 le_rfl]
    norm_num
  · unfold pinkyCurledPred
    rw [e20, e9, palmSizeOf_victoryHand, distance_y_axis 1 1 0 0 le_rfl]
    norm_num

lemma palmSizeOf_pointHand : palmSizeOf pointHand = 1 := by
  have e0 : pointHand 0 = (⟨0, 0, 0⟩ : Landmark) := rfl
  have e9 : pointHand 9 = (⟨0, 1, 0⟩ : Landmark) := rfl
  unfold palmSizeOf
  rw [e0, e9, distance_comm, distance_y_axis 1 0 0 0 (by norm_num)]
  norm_num

lemma indexExtendedPred_pointHand : indexExtendedPred pointHand := by
  have e0 : pointHand 0 = (⟨0, 0, 0⟩ : Landmark) := rfl
  have e6 : pointHand 6 = (⟨1, 0, 0⟩ : Landmark) := rfl
  have e8 : pointHand 8 = (⟨2, 0, 0⟩ : Landmark) := rfl
  unfold indexExtendedPred
  rw [e8, e6, e0, distance_x_axis 2 0 0 0 (by norm_num),
    distance_x_axis 1 0 0 0 (by norm_num)]
  norm_num

lemma not_middleExtendedPred_pointHand : ¬middleExtendedPred pointHand := by
  have e0 : pointHand 0 = (⟨0, 0, 0⟩ : Landmark) := rfl
  have e10 : pointHand 10 = (⟨1, 0, 0⟩ : Landmark) := rfl
  have e12 : pointHand 12 = (⟨0, 1, 0⟩ : Landmark) := rfl
  unfold middleExtendedPred
  rw [e12, e10, e0, distance_y_axis 1 0 0 0 (by norm_num),
    distance_x_axis 1 0 0 0 (by norm_num)]
  norm_num

lemma not_ringExtendedPred_pointHand : ¬ringExtendedPred pointHand := by
  have e0 : pointHand 0 = (⟨0, 0, 0⟩ : Landmark) := rfl
  have e14 : pointHand 14 = (⟨1, 0, 0⟩ : Landmark) := rfl
  have e16 : pointHand 16 = (⟨0, 1, 0⟩ : Landmark) := rfl
  unfold ringExtendedPred
  rw [e16, e14, e0, distance_y_axis 1 0 0 0 (by norm_num),
    distance_x_axis 1 0 0 0 (by norm_num)]
  norm_num

lemma not_pinkyExtendedPred_pointHand : ¬pinkyExtendedPred pointHand := by
  have e0 : pointHand 0 = (⟨0, 0, 0⟩ : Landmark) := rfl
  have e18 : pointHand 18 = (⟨1, 0, 0⟩ : Landmark) := rfl
  have e20 : pointHand 20 = (⟨0, 1, 0⟩ : Landmark) := rfl
  unfold pinkyExtendedPred
  rw [e20, e18, e0, distance_y_axis 1 0 0 0 (by norm_num),
    distance_x_axis 1 0 0 0 (by norm_num)]
  norm_num

lemma pointPred_pointHand : pointPred pointHand :=
  ⟨indexExtendedPred_pointHand, not_middleExtendedPred_pointHand,
    not_ringExtendedPred_pointHand, not_pinkyExtendedPred_pointHand⟩

lemma palmSizeOf_loveHand : palmSizeOf loveHand = 1 := by
  have e0 : loveHand 0 = (⟨0, 0, 0⟩ : Landmark) := rfl
  have e9 : loveHand 9 = (⟨0, 1, 0⟩ : Landmark) := rfl
  unfold palmSizeOf
  rw [e0, e9, distance_comm, distance_y_axis 1 0 0 0 (by norm_num)]
  norm_num

lemma lovePred_loveHand : lovePred loveHand := by
  have e0 : loveHand 0 = (⟨0, 0, 0⟩ : Landmark) := rfl
  have e4 : loveHand 4 = (⟨5, 0, 0⟩ : Landmark) := rfl
  have e5 : loveHand 5 = (⟨3, 0, 0⟩ : Landmark) := rfl
  have e6 : loveHand 6 = (⟨1, 0, 0⟩ : Landmark) := rfl
  have e8 : loveHand 8 = (⟨2, 0, 0⟩ : Landmark) := rfl
  have e10 : loveHand 10 = (⟨1, 0, 0⟩ : Landmark) := rfl
  have e12 : loveHand 12 = (⟨0, 1, 0⟩ : Landmark) := rfl
  have e14 : loveHand 14 = (⟨1, 0, 0⟩ : Landmark) := rfl
  have e16 : loveHand 16 = (⟨0, 1, 0⟩ : Landmark) := rfl
  have e18 : loveHand 18 = (⟨1, 0, 0⟩ : Landmark) := rfl
  have e20 : loveHand 20 = (⟨0, 2, 0⟩ : Landmark) := rfl
  refine ⟨?_, ?_, ?_, ?_, ?_⟩
  · unfold thumbExtendedPred
    rw [e4, e5, palmSizeOf_loveHand, distance_x_axis 5 3 0 0 (by norm_num)]
    norm_num
  · unfold indexExtendedPred
    rw [e8, e6, e0, distance_x_axis 2 0 0 0 (by norm_num),
      distance_x_axis 1 0 0 0 (by norm_num)]
    norm_num
  · unfold middleExtendedPred
    rw [e12, e10, e0, distance_y_axis 1 0 0 0 (by norm_num),
      distance_x_axis 1 0 0 0 (by norm_num)]
    norm_num
  · unfold ringExtendedPred
    rw [e16, e14, e0, distance_y_axis 1 0 0 0 (by norm_num),
      distance_x_axis 1 0 0 0 (by norm_num)]
    norm_num
  · unfold pinkyExtendedPred
    rw [e20, e18, e0, distance_y_axis 2 0 0 0 (by norm_num),
      distance_x_axis 1 0 0 0 (by norm_num)]
    norm_num

lemma not_middleExtendedPred_loveHand : ¬middleExtendedPred loveHand := by
  have e0 : loveHand 0 = (⟨0, 0, 0⟩ : Landmark) := rfl
  have e10 : loveHand 10 = (⟨1, 0, 0⟩ : Landmark) := rfl
  have e12 : loveHand 12 = (⟨0, 1, 0⟩ : Landmark) := rfl
  unfold middleExtendedPred
  rw [e12, e10, e0, distance_y_axis 1 0 0 0 (by norm_num),
    distance_x_axis 1 0 0 0 (by norm_num)]
  norm_num

/-- The source `detectGesture` is exactly the priority chain over the named
§4.1 predicates. -/
lemma detectGesture_chain (lm : Hand) :
    detectGesture lm =
      if victoryPred lm then GestureType.victory
      else if lovePred lm then GestureType.love
      else if thumbsUpPred lm then GestureType.thumbs_up
      else if pointPred lm then GestureType.point
      else GestureType.none := by
  unfold detectGesture
  exact if_congr Iff.rfl rfl (if_congr Iff.rfl rfl (if_congr Iff.rfl rfl
    (if_congr Iff.rfl rfl rfl)))

lemma detectGesture_victoryHand :
    detectGesture victoryHand = GestureType.victory := by
  rw [detectGesture_chain, if_pos victoryPred_victoryHand]

lemma detectGesture_pointHand : detectGesture pointHand = GestureType.point := by
  rw [detectGesture_chain,
    if_neg (fun h : victoryPred pointHand =>
      not_middleExtendedPred_pointHand h.2.1),
    if_neg (fun h : lovePred pointHand =>
      not_pinkyExtendedPred_pointHand h.2.2.2.2),
    if_neg (fun h : thumbsUpPred pointHand =>
      h.2.1 indexExtendedPred_pointHand),
    if_pos pointPred_pointHand]

lemma detectGesture_loveHand : detectGesture loveHand = GestureType.love := by
  rw [detectGesture_chain,
    if_neg (fun h : victoryPred loveHand =>
      not_middleExtendedPred_loveHand h.2.1),
    if_pos lovePred_loveHand]

/-! ## Claim theorems -/

/-- C1: for every 21-landmark hand observation whose palm size
`distance(wrist, landmark 9)` is nonzero, the tension returned by
`calculateTension` lies in [0, 1] and equals the mean over the five
tip/base pairs (4,2)(8,5)(12,9)(16,13)(20,17) of
`curl = clamp((1.5 − extension)/1.0, 0, 1)` with
`extension = distance(tip, palmBase)/palmSize`, the mean itself clamped to
[0, 1]. -/
theorem calculateTension_bounds_and_spec (lm : Hand)
    (_hpalm : distance (lm 0) (lm 9) ≠ 0) :
    0 ≤ calculateTension lm ∧ calculateTension lm ≤ 1 ∧
      calculateTension lm = tensionSpec lm := by
  refine ⟨le_max_left 0 _, max_le (by norm_num) (min_le_left 1 _), ?_⟩
  unfold calculateTension tensionSpec curlSpec palmSizeOf
  simp only [List.zip_cons_cons, List.zip_nil_right, List.foldl_cons,
    List.foldl_nil]
  ring_nf

/-- C1 witness: the concrete point hand has palm size 1 ≠ 0 and the
theorem evaluates on it. -/
theorem calculateTension_bounds_and_spec_witness :
    distance (pointHand 0) (pointHand 9) ≠ 0 ∧
      (0 ≤ calculateTension pointHand ∧ calculateTension pointHand ≤ 1 ∧
        calculateTension pointHand = tensionSpec pointHand) := by
  have h1 : palmSizeOf pointHand = 1 := palmSizeOf_pointHand
  unfold palmSizeOf at h1
  have h : distance (pointHand 0) (pointHand 9) ≠ 0 := by
    rw [h1]; norm_num
  exact ⟨h, calculateTension_bounds_and_spec pointHand h⟩

/-- C2: `detectGesture` evaluates the gesture predicates in the exact
priority order victory, love, thumbs_up, point and returns the first match,
otherwise none; and any landmark set satisfying the victory predicate — in
particular one that would also satisfy the point predicate — classifies as
victory. -/
theorem detectGesture_priority :
    (∀ lm : Hand, detectGesture lm =
        if victoryPred lm then GestureType.victory
        else if lovePred lm then GestureType.love
        else if thumbsUpPred lm then GestureType.thumbs_up
        else if pointPred lm then GestureType.point
        else GestureType.none) ∧
    (∀ lm : Hand, victoryPred lm → detectGesture lm = GestureType.victory) := by
  refine ⟨detectGesture_chain, fun lm h => ?_⟩
  rw [detectGesture_chain, if_pos h]

/-- C2 witness: the concrete victory hand satisfies the victory predicate
and classifies as victory. -/
theorem detectGesture_priority_witness :
    victoryPred victoryHand ∧ detectGesture victoryHand = GestureType.victory :=
  ⟨victoryPred_victoryHand,
    detectGesture_priority.2 victoryHand victoryPred_victoryHand⟩

/-- C8: for every shape in the catalog and every count N ≥ 1 the generated
target cloud contains exactly N points, including the text shape when the
pixel scan found zero foreground pixels (the grid fallback still fills all
N points). -/
theorem generateParticles_cardinality (shape : ParticleShape) (count : ℕ)
    (pixels : List (ℕ × ℕ)) (oracle : ℕ → ℕ → ℝ) (_hcount : 1 ≤ count) :
    (generateParticles count shape pixels oracle).length = count := by
  unfold generateParticles generateTextPoints
  split_ifs <;> simp

/-- C8 witness: the text shape with an empty pixel scan still yields
exactly 3 points. -/
theorem generateParticles_cardinality_witness :
    1 ≤ 3 ∧
      (generateParticles 3 ParticleShape.text [] fun _ _ => (0 : ℝ)).length
        = 3 :=
  ⟨by norm_num,
    generateParticles_cardinality ParticleShape.text 3 []
      (fun _ _ => (0 : ℝ)) (by norm_num)⟩

/-- C9: the code contradicts its own type declaration.  `types.ts` declares
`GestureType = 'none' | 'openHand | 'fist' | 'victory'` (four values), yet
`detectGesture` — annotated as returning `GestureType` — returns `'love'`
(and `'thumbs_up'`, `'point'`) on suitable landmark sets: the concrete love
hand classifies as love, whose literal is not among the declared values,
and the declared list does not contain the seven values the spec names. -/
theorem gestureType_declared_mismatch :
    detectGesture loveHand = GestureType.love ∧
      gestureName GestureType.love ∉ declaredGestureTypeValues ∧
      declaredGestureTypeValues ≠
        ["none", "open", "fist", "victory", "love", "thumbs_up", "point"] :=
  ⟨detectGesture_loveHand, by decide, by decide⟩

/-- C10: noninterference of unused landmarks — any two hands agreeing on
landmarks 0, 4, 8, 9, 12, 16 and 20 get identical tensions; the base
landmarks (2, 5, 13, 17) are read into the dead `baseToPalm` binding and
never influence the result, and no other landmark is read at all. -/
theorem calculateTension_noninterference (lm1 lm2 : Hand)
    (h : ∀ i : Fin 21, i.val ∈ [0, 4, 8, 9, 12, 16, 20] → lm1 i = lm2 i) :
    calculateTension lm1 = calculateTension lm2 := by
  have e0 : lm1 0 = lm2 0 := h 0 (by decide)
  have e4 : lm1 4 = lm2 4 := h 4 (by decide)
  have e8 : lm1 8 = lm2 8 := h 8 (by decide)
  have e9 : lm1 9 = lm2 9 := h 9 (by decide)
  have e12 : lm1 12 = lm2 12 := h 12 (by decide)
  have e16 : lm1 16 = lm2 16 := h 16 (by decide)
  have e20 : lm1 20 = lm2 20 := h 20 (by decide)
  unfold calculateTension
  simp only [List.zip_cons_cons, List.zip_nil_right, List.foldl_cons,
    List.foldl_nil]
  rw [e0, e4, e8, e9, e12, e16, e20]

/-- A hand differing from `zeroHand` only at the dead base landmarks 2 and
5. -/
noncomputable def shadowHand : Hand := fun i =>
  if i.val = 2 then ⟨7, 8, 9⟩
  else if i.val = 5 then ⟨1, 2, 3⟩
  else ⟨0, 0, 0⟩

/-- C10 witness: `zeroHand` and `shadowHand` agree on the seven live
landmarks (while differing at landmarks 2 and 5) and get equal tensions. -/
theorem calculateTension_noninterference_witness :
    (∀ i : Fin 21, i.val ∈ [0, 4, 8, 9, 12, 16, 20] →
      zeroHand i = shadowHand i) ∧
    calculateTension zeroHand = calculateTension shadowHand := by
  have h : ∀ i : Fin 21, i.val ∈ [0, 4, 8, 9, 12, 16, 20] →
      zeroHand i = shadowHand i := by
    intro i hi
    simp only [List.mem_cons, List.not_mem_nil, or_false] at hi
    unfold zeroHand shadowHand
    rcases hi with h' | h' | h' | h' | h' | h' | h' <;> rw [h'] <;> norm_num
  exact ⟨h, calculateTension_noninterference zeroHand shadowHand h⟩

lemma jsDiv_zero_zero : jsDiv (JSVal.num 0) (JSVal.num 0) = JSVal.nan := by
  simp [jsDiv]

lemma jsAdd_nan (x : JSVal) : jsAdd JSVal.nan x = JSVal.nan := by
  cases x <;> rfl

lemma jsDiv_pos_zero (d : ℝ) (hd : 0 < d) :
    jsDiv (JSVal.num d) (JSVal.num 0) = JSVal.inf := by
  simp [jsDiv, ne_of_gt hd, not_lt.mpr hd.le]

lemma curl_of_nan :
    jsMax (JSVal.num 0) (jsMin (JSVal.num 1)
      (jsDiv (jsSub (JSVal.num 1.5) JSVal.nan) (JSVal.num 1))) = JSVal.nan :=
  rfl

lemma curl_of_inf :
    jsMax (JSVal.num 0) (jsMin (JSVal.num 1)
      (jsDiv (jsSub (JSVal.num 1.5) JSVal.inf) (JSVal.num 1))) =
      JSVal.num 0 := by
  simp only [jsSub, jsNeg, jsAdd, jsDiv]
  rw [if_neg (by norm_num : ¬(1 : ℝ) < 0)]
  rfl

/-- C4 counterexample: with every landmark at the same position
(`palmSize = 0` and every fingertip coincident with the palm base) the
classifier's tension computation is `0/0 = NaN` under JavaScript number
semantics, so the `palmSize == 0` case is not special-cased with a defined
fallback value. -/
theorem palmSizeZero_tension_nan : calculateTensionJS zeroHand = JSVal.nan := by
  have hd : ∀ i j : Fin 21, distance (zeroHand i) (zeroHand j) = 0 :=
    fun _ _ => distance_self ⟨0, 0, 0⟩
  unfold calculateTensionJS
  simp only [hd, List.zip_cons_cons, List.zip_nil_right, List.foldl_cons,
    List.foldl_nil, jsDiv_zero_zero, curl_of_nan]
  rfl

lemma jsAdd_nan_right (x : JSVal) : jsAdd x JSVal.nan = JSVal.nan := by
  cases x <;> rfl

lemma distance_nonneg (a b : Landmark) : 0 ≤ distance a b :=
  Real.sqrt_nonneg _

/-- The per-finger curl over a zero palm size: `NaN` for a coincident tip
(`0/0`), the clamped value 0 for a separated one (`d/0 = Infinity`). -/
lemma curlJS_zero_palm (d : ℝ) (hd : 0 ≤ d) :
    jsMax (JSVal.num 0) (jsMin (JSVal.num 1)
      (jsDiv (jsSub (JSVal.num 1.5) (jsDiv (JSVal.num d) (JSVal.num 0)))
        (JSVal.num 1))) =
      if d = 0 then JSVal.nan else JSVal.num 0 := by
  by_cases h : d = 0
  · subst h
    rw [if_pos rfl, jsDiv_zero_zero]
    exact curl_of_nan
  · rw [if_neg h, jsDiv_pos_zero d (lt_of_le_of_ne hd (Ne.symm h))]
    exact curl_of_inf

/-- The clamped five-curl average is `NaN` as soon as any single curl is. -/
lemma clampAvg5_nan (a b c d' e : JSVal)
    (h : a = JSVal.nan ∨ b = JSVal.nan ∨ c = JSVal.nan ∨ d' = JSVal.nan ∨
      e = JSVal.nan) :
    jsMax (JSVal.num 0) (jsMin (JSVal.num 1)
      (jsDiv (jsAdd (jsAdd (jsAdd (jsAdd (jsAdd (JSVal.num 0) a) b) c) d') e)
        (JSVal.num 5))) = JSVal.nan := by
  have hadd : ∀ x y : JSVal, x = JSVal.nan ∨ y = JSVal.nan →
      jsAdd x y = JSVal.nan := by
    rintro x y (rfl | rfl)
    · exact jsAdd_nan y
    · exact jsAdd_nan_right x
  have hsum :
      jsAdd (jsAdd (jsAdd (jsAdd (jsAdd (JSVal.num 0) a) b) c) d') e =
        JSVal.nan := by
    rcases h with h | h | h | h | h
    · exact hadd _ _ (Or.inl (hadd _ _ (Or.inl (hadd _ _ (Or.inl
        (hadd _ _ (Or.inl (hadd _ _ (Or.inr h)))))))))
    · exact hadd _ _ (Or.inl (hadd _ _ (Or.inl (hadd _ _ (Or.inl
        (hadd _ _ (Or.inr h)))))))
    · exact hadd _ _ (Or.inl (hadd _ _ (Or.inl (hadd _ _ (Or.inr h)))))
    · exact hadd _ _ (Or.inl (hadd _ _ (Or.inr h)))
    · exact hadd _ _ (Or.inr h)
  rw [hsum]
  rfl

/-- A hand with wrist and palm base coincident (`palmSize = 0`) whose index
tip also sits on the palm base while the thumb, middle, ring and pinky tips
are at distance 1 from it. -/
noncomputable def indexOnZeroPalmHand : Hand := fun i =>
  if i.val = 4 ∨ i.val = 12 ∨ i.val = 16 ∨ i.val = 20 then ⟨1, 0, 0⟩
  else ⟨0, 0, 0⟩

/-- A hand with wrist and palm base coincident (`palmSize = 0`) but every
fingertip at distance 1 from the palm base. -/
noncomputable def collapsedPalmHand : Hand := fun i =>
  if i.val = 4 ∨ i.val = 8 ∨ i.val = 12 ∨ i.val = 16 ∨ i.val = 20 then
    ⟨1, 0, 0⟩
  else ⟨0, 0, 0⟩

/-- C4 (amended): the morph engine's `dist ≈ 0` case is genuinely
special-cased — at distance ≤ 0.01 the direction is the randomized fallback
`Math.random() − 0.5`, no division happens — but the classifier has no
`palmSize == 0` guard: with `palmSize == 0` the tension is `NaN` whenever a
fingertip coincides with the palm base (0/0), while the clamps happen to
yield the defined value 0 when every fingertip is at positive distance from
the palm base (x/0 = Infinity, clamped). -/
theorem divisionByZero_guards_amended :
    (∀ t dist rnd : ℝ, dist ≤ 0.01 → fallbackDir t dist rnd = rnd - 0.5) ∧
    (∀ lm : Hand, distance (lm 0) (lm 9) = 0 →
      (∃ i : Fin 21, i.val ∈ [4, 8, 12, 16, 20] ∧
        distance (lm i) (lm 9) = 0) →
      calculateTensionJS lm = JSVal.nan) ∧
    (∀ lm : Hand, distance (lm 0) (lm 9) = 0 →
      (∀ i : Fin 21, i.val ∈ [4, 8, 12, 16, 20] →
        0 < distance (lm i) (lm 9)) →
      calculateTensionJS lm = JSVal.num 0) := by
  refine ⟨?_, ?_, ?_⟩
  · intro t dist rnd h
    unfold fallbackDir
    rw [if_neg (not_lt.mpr h)]
  · intro lm hp hex
    obtain ⟨i, hi, hz⟩ := hex
    unfold calculateTensionJS
    simp only [hp, List.zip_cons_cons, List.zip_nil_right, List.foldl_cons,
      List.foldl_nil,
      curlJS_zero_palm (distance (lm 4) (lm 9)) (distance_nonneg _ _),
      curlJS_zero_palm (distance (lm 8) (lm 9)) (distance_nonneg _ _),
      curlJS_zero_palm (distance (lm 12) (lm 9)) (distance_nonneg _ _),
      curlJS_zero_palm (distance (lm 16) (lm 9)) (distance_nonneg _ _),
      curlJS_zero_palm (distance (lm 20) (lm 9)) (distance_nonneg _ _)]
    simp only [List.mem_cons, List.not_mem_nil, or_false] at hi
    rcases hi with h' | h' | h' | h' | h'
    · have hieq : i = (4 : Fin 21) := Fin.eq_of_val_eq (by rw [h']; rfl)
      rw [hieq] at hz
      exact clampAvg5_nan _ _ _ _ _ (Or.inl (if_pos hz))
    · have hieq : i = (8 : Fin 21) := Fin.eq_of_val_eq (by rw [h']; rfl)
      rw [hieq] at hz
      exact clampAvg5_nan _ _ _ _ _ (Or.inr (Or.inl (if_pos hz)))
    · have hieq : i = (12 : Fin 21) := Fin.eq_of_val_eq (by rw [h']; rfl)
      rw [hieq] at hz
      exact clampAvg5_nan _ _ _ _ _ (Or.inr (Or.inr (Or.inl (if_pos hz))))
    · have hieq : i = (16 : Fin 21) := Fin.eq_of_val_eq (by rw [h']; rfl)
      rw [hieq] at hz
      exact clampAvg5_nan _ _ _ _ _
        (Or.inr (Or.inr (Or.inr (Or.inl (if_pos hz)))))
    · have hieq : i = (20 : Fin 21) := Fin.eq_of_val_eq (by rw [h']; rfl)
      rw [hieq] at hz
      exact clampAvg5_nan _ _ _ _ _
        (Or.inr (Or.inr (Or.inr (Or.inr (if_pos hz)))))
  · intro lm hp hpos
    have h4 := hpos 4 (by decide)
    have h8 := hpos 8 (by decide)
    have h12 := hpos 12 (by decide)
    have h16 := hpos 16 (by decide)
    have h20 := hpos 20 (by decide)
    unfold calculateTensionJS
    simp only [hp, List.zip_cons_cons, List.zip_nil_right, List.foldl_cons,
      List.foldl_nil, jsDiv_pos_zero _ h4, jsDiv_pos_zero _ h8,
      jsDiv_pos_zero _ h12, jsDiv_pos_zero _ h16, jsDiv_pos_zero _ h20,
      curl_of_inf]
    norm_num [jsAdd, jsDiv, jsMin, jsMax]

/-- C4 (amended) witness: the guard theorem evaluated at `dist = 0`, the
NaN case at a hand whose palm size is 0 and where only the index tip —
not the thumb — coincides with the palm base, and the defined-0 case at
the collapsed-palm hand. -/
theorem divisionByZero_guards_amended_witness :
    ((0 : ℝ) ≤ 0.01 ∧ fallbackDir 3 0 0.25 = 0.25 - 0.5) ∧
    (distance (indexOnZeroPalmHand 0) (indexOnZeroPalmHand 9) = 0 ∧
      (∃ i : Fin 21, i.val ∈ [4, 8, 12, 16, 20] ∧
        distance (indexOnZeroPalmHand i) (indexOnZeroPalmHand 9) = 0) ∧
      distance (indexOnZeroPalmHand 4) (indexOnZeroPalmHand 9) = 1 ∧
      calculateTensionJS indexOnZeroPalmHand = JSVal.nan) ∧
    (distance (collapsedPalmHand 0) (collapsedPalmHand 9) = 0 ∧
      calculateTensionJS collapsedPalmHand = JSVal.num 0) := by
  have hip : distance (indexOnZeroPalmHand 0) (indexOnZeroPalmHand 9) = 0 :=
    distance_self ⟨0, 0, 0⟩
  have hz8 : distance (indexOnZeroPalmHand 8) (indexOnZeroPalmHand 9) = 0 :=
    distance_self ⟨0, 0, 0⟩
  have hex : ∃ i : Fin 21, i.val ∈ [4, 8, 12, 16, 20] ∧
      distance (indexOnZeroPalmHand i) (indexOnZeroPalmHand 9) = 0 :=
    ⟨8, by decide, hz8⟩
  have hd4 : distance (indexOnZeroPalmHand 4) (indexOnZeroPalmHand 9) = 1 := by
    have h4 : indexOnZeroPalmHand 4 = (⟨1, 0, 0⟩ : Landmark) := rfl
    have h9 : indexOnZeroPalmHand 9 = (⟨0, 0, 0⟩ : Landmark) := rfl
    rw [h4, h9, distance_x_axis 1 0 0 0 (by norm_num)]
    norm_num
  have hp0 : distance (collapsedPalmHand 0) (collapsedPalmHand 9) = 0 :=
    distance_self ⟨0, 0, 0⟩
  have hpos : ∀ i : Fin 21, i.val ∈ [4, 8, 12, 16, 20] →
      0 < distance (collapsedPalmHand i) (collapsedPalmHand 9) := by
    intro i hi
    simp only [List.mem_cons, List.not_mem_nil, or_false] at hi
    have hcp : collapsedPalmHand i = (⟨1, 0, 0⟩ : Landmark) := by
      unfold collapsedPalmHand
      rcases hi with h' | h' | h' | h' | h' <;> rw [h'] <;> norm_num
    have hcp9 : collapsedPalmHand 9 = (⟨0, 0, 0⟩ : Landmark) := rfl
    rw [hcp, hcp9, distance_x_axis 1 0 0 0 (by norm_num)]
    norm_num
  exact ⟨⟨by norm_num,
      divisionByZero_guards_amended.1 3 0 0.25 (by norm_num)⟩,
    ⟨hip, hex, hd4,
      divisionByZero_guards_amended.2.1 indexOnZeroPalmHand hip hex⟩,
    ⟨hp0, divisionByZero_guards_amended.2.2 collapsedPalmHand hp0 hpos⟩⟩

lemma processResults_gesture (hands : List DetectedHand)
    (hne : hands.isEmpty = false) :
    (processResults hands).gesture =
      (if (hands.foldl processHand
            ⟨0, false, false, GestureType.none⟩).detectedGesture =
          GestureType.none then
        if (hands.foldl processHand
              ⟨0, false, false, GestureType.none⟩).totalTension /
            (hands.length : ℝ) > 0.7 then GestureType.fist
        else if (hands.foldl processHand
              ⟨0, false, false, GestureType.none⟩).totalTension /
            (hands.length : ℝ) < 0.3 then GestureType.openHand
        else GestureType.none
      else (hands.foldl processHand
        ⟨0, false, false, GestureType.none⟩).detectedGesture) := by
  unfold processResults
  rw [if_neg (by simp [hne])]

/-- C5 (amended): for every non-empty detection tick, the aggregated
gesture is the LAST non-none specific gesture among the hands in input
scan order (each non-none per-hand gesture overwrites the accumulator, so
when two hands report different specific gestures the later hand wins);
when no hand yields a specific gesture, the gesture is fist if the
averaged tension exceeds 0.7, open if it is below 0.3, and none
otherwise. -/
theorem processResults_gesture_aggregation (hands : List DetectedHand)
    (hne : hands ≠ []) :
    (processResults hands).gesture =
      match lastSpecificGesture
          (hands.map fun h => detectGesture h.landmarks) with
      | some g => g
      | Option.none =>
          if (hands.map fun h => calculateTension h.landmarks).sum /
              (hands.length : ℝ) > 0.7 then GestureType.fist
          else if (hands.map fun h => calculateTension h.landmarks).sum /
              (hands.length : ℝ) < 0.3 then GestureType.openHand
          else GestureType.none := by
  have hne' : hands.isEmpty = false := by
    cases hands with
    | nil => exact absurd rfl hne
    | cons a t => rfl
  rw [processResults_gesture hands hne',
    foldl_processHand_gesture hands ⟨0, false, false, GestureType.none⟩,
    foldl_processHand_tension hands ⟨0, false, false, GestureType.none⟩,
    foldl_lastGesture]
  unfold lastSpecificGesture
  simp only [zero_add]
  cases hfind : (hands.map fun h => detectGesture h.landmarks).reverse.find?
      (fun g => g != GestureType.none) with
  | none => simp
  | some g =>
      have hb := List.find?_some hfind
      have hgne : g ≠ GestureType.none := bne_iff_ne.mp hb
      simp [hgne]

/-- C5 (amended) witness: a single-hand tick with the point hand reports
the point gesture through the aggregation formula. -/
theorem processResults_gesture_aggregation_witness :
    ([(⟨pointHand, Option.none⟩ : DetectedHand)] ≠ []) ∧
      (processResults [⟨pointHand, Option.none⟩]).gesture =
        match lastSpecificGesture
            (([(⟨pointHand, Option.none⟩ : DetectedHand)]).map
              fun h => detectGesture h.landmarks) with
        | some g => g
        | Option.none =>
            if (([(⟨pointHand, Option.none⟩ : DetectedHand)]).map
                  fun h => calculateTension h.landmarks).sum /
                (([(⟨pointHand, Option.none⟩ : DetectedHand)]).length : ℝ) >
                0.7 then GestureType.fist
            else if (([(⟨pointHand, Option.none⟩ : DetectedHand)]).map
                  fun h => calculateTension h.landmarks).sum /
                (([(⟨pointHand, Option.none⟩ : DetectedHand)]).length : ℝ) <
                0.3 then GestureType.openHand
            else GestureType.none :=
  ⟨by simp, processResults_gesture_aggregation [⟨pointHand, Option.none⟩] (by simp)⟩

/-- C5 counterexample: the first hand classifies as victory and the second
as point, yet the aggregated gesture is point — the later hand wins, not
the first in scan order. -/
theorem processResults_lastGestureWins_cex :
    detectGesture victoryHand = GestureType.victory ∧
    detectGesture pointHand = GestureType.point ∧
    (processResults
        [⟨victoryHand, some "Left"⟩, ⟨pointHand, Option.none⟩]).gesture =
      GestureType.point ∧
    GestureType.point ≠ GestureType.victory := by
  refine ⟨detectGesture_victoryHand, detectGesture_pointHand, ?_, by decide⟩
  rw [processResults_gesture
      [⟨victoryHand, some "Left"⟩, ⟨pointHand, Option.none⟩] rfl,
    foldl_processHand_gesture _ ⟨0, false, false, GestureType.none⟩]
  simp [detectGesture_victoryHand, detectGesture_pointHand]

set_option maxHeartbeats 1000000 in
/-- C7: starting from the zero-initialized accumulators, every full-mode
tick — for any tension in [0, 1] and any delta ≥ 0 — preserves the
invariant `burstEnergy ∈ [0,5]`, `explosionPhase ∈ [0,1]`,
`cumulativeExplosion ∈ [0,2]`, `shockwaveRadius ≥ 0`: the rapid-opening
increments are capped at 5, 1 and 2, and the tick then multiplies the four
accumulators by the decay factors 0.92, 0.95, 0.98 and 0.96. -/
theorem burstAccums_invariant :
    accumsInv initBurstAccums ∧
      ∀ (tension delta : ℚ) (a : BurstAccums),
        0 ≤ tension → tension ≤ 1 → 0 ≤ delta → accumsInv a →
          accumsInv (tickAccums tension delta a) := by
  constructor
  · exact ⟨le_rfl, by norm_num [initBurstAccums], le_rfl,
      by norm_num [initBurstAccums], le_rfl, by norm_num [initBurstAccums],
      le_rfl⟩
  · intro t d a _ht0 _ht1 hd hinv
    obtain ⟨hb0, hb5, he0, he1, hc0, hc2, hs0⟩ := hinv
    have habs : (0 : ℚ) ≤ |min (t - a.prevTension) 0| := abs_nonneg _
    have h25 : (0 : ℚ) ≤ |min (t - a.prevTension) 0| * 25 :=
      mul_nonneg habs (by norm_num)
    have h30 : (0 : ℚ) ≤ |min (t - a.prevTension) 0| * 30 :=
      mul_nonneg habs (by norm_num)
    have h10 : (0 : ℚ) ≤ |min (t - a.prevTension) 0| * 10 :=
      mul_nonneg habs (by norm_num)
    have hbmin0 : (0 : ℚ) ≤
        min (a.burstEnergy + |min (t - a.prevTension) 0| * 25) 5 :=
      le_min (add_nonneg hb0 h25) (by norm_num)
    have hbmin5 :
        min (a.burstEnergy + |min (t - a.prevTension) 0| * 25) 5 ≤ 5 :=
      min_le_right _ _
    have hemin0 : (0 : ℚ) ≤
        min (a.explosionPhase + |min (t - a.prevTension) 0| * 30) 1 :=
      le_min (add_nonneg he0 h30) (by norm_num)
    have hemin1 :
        min (a.explosionPhase + |min (t - a.prevTension) 0| * 30) 1 ≤ 1 :=
      min_le_right _ _
    have hcmin0 : (0 : ℚ) ≤
        min (a.cumulativeExplosion + |min (t - a.prevTension) 0| * 10) 2 :=
      le_min (add_nonneg hc0 h10) (by norm_num)
    have hcmin2 :
        min (a.cumulativeExplosion + |min (t - a.prevTension) 0| * 10) 2 ≤
          2 := min_le_right _ _
    have hdm1 : (0 : ℚ) ≤ d * 15 *
        min (a.burstEnergy + |min (t - a.prevTension) 0| * 25) 5 :=
      mul_nonneg (mul_nonneg hd (by norm_num)) hbmin0
    have hdm2 : (0 : ℚ) ≤ d * 15 * a.burstEnergy :=
      mul_nonneg (mul_nonneg hd (by norm_num)) hb0
    unfold tickAccums accumsInv
    dsimp only
    split_ifs <;>
      refine ⟨?_, ?_, ?_, ?_, ?_, ?_, ?_⟩ <;>
      linarith [habs, hb0, hb5, he0, he1, hc0, hc2, hs0, hd, hbmin0,
        hbmin5, hemin0, hemin1, hcmin0, hcmin2, hdm1, hdm2]

/-- C7 witness: one tick from the zero-initialized accumulators at
tension 0, delta 0. -/
theorem burstAccums_invariant_witness :
    ((0 : ℚ) ≤ 0 ∧ (0 : ℚ) ≤ 1 ∧ accumsInv initBurstAccums) ∧
      accumsInv (tickAccums 0 0 initBurstAccums) :=
  ⟨⟨le_rfl, by norm_num, burstAccums_invariant.1⟩,
    burstAccums_invariant.2 0 0 initBurstAccums le_rfl (by norm_num) le_rfl
      burstAccums_invariant.1⟩

/-! Stepping lemmas for the debouncer model. -/

lemma effectBody_self (now : ℕ) (s : AppState) (h : s.raw = s.current) :
    effectBody now s = s := by
  unfold effectBody
  rw [if_pos h]

lemma effectBody_arm_confirm (now : ℕ) (s : AppState)
    (h1 : s.raw ≠ s.current) (h2 : isSpecial s.raw = true) :
    effectBody now s = { s with timer := some ⟨now + 300,
      TimerKind.confirm s.raw s.current s.activeShape s.particleColor⟩ } := by
  unfold effectBody
  rw [if_neg h1, if_pos h2]

lemma effectBody_arm_release (now : ℕ) (s : AppState)
    (h1 : s.raw ≠ s.current) (h2 : isSpecial s.raw = false)
    (h3 : isSpecial s.current = true) :
    effectBody now s = { s with timer := some ⟨now + 1000,
      TimerKind.release s.previousShape s.previousColor⟩ } := by
  unfold effectBody
  rw [if_neg h1, if_neg (by simp [h2]), if_pos h3]

lemma effectBody_base (now : ℕ) (s : AppState)
    (h1 : s.raw ≠ s.current) (h2 : isSpecial s.raw = false)
    (h3 : isSpecial s.current = false) :
    effectBody now s = { s with current := s.raw } := by
  unfold effectBody
  rw [if_neg h1, if_neg (by simp [h2]), if_neg (by simp [h3])]

lemma rawEvent_step (now : ℕ) (g : GestureType) (s : AppState)
    (h : g ≠ s.raw) :
    rawGestureEvent now g s =
      effectBody now { s with raw := g, timer := Option.none } := by
  unfold rawGestureEvent effectRun
  rw [if_neg h]

lemma fireDue_early (now : ℕ) (s : AppState) (tm : PendingTimer)
    (h : s.timer = some tm) (hlt : now < tm.deadline) :
    fireDue now s = s := by
  simp only [fireDue, h]
  rw [if_neg (not_le.mpr hlt)]

lemma fireDue_fire (now : ℕ) (s : AppState) (tm : PendingTimer)
    (h : s.timer = some tm) (hle : tm.deadline ≤ now) :
    fireDue now s =
      effectRun now (fireCallback tm.kind { s with timer := Option.none }) := by
  simp only [fireDue, h]
  rw [if_pos hle]

/-- C3: the debounce timing of the gesture effect.  (1)–(2) a raw special
gesture differing from `currentGesture` only arms a 300 ms timer and
commits nothing before it expires; (3) if the raw gesture reverts before
300 ms the pending timer is cancelled and the state carries no trace of the
excursion, so `currentGesture` never becomes that special gesture; (4) held
to 300 ms, the gesture commits; (5) from a committed special gesture, a raw
non-special gesture arms a 1000 ms release timer, `currentGesture` stays
special before it expires and reverts exactly at expiry; (6) transitions
among the base gestures apply with no delay; (7) the single timer slot: any
actual raw-gesture change leaves either no pending timer or one freshly
armed at the event time, never the previous in-flight timer. -/
theorem gestureDebounce_timing :
    (∀ (s : AppState) (t : ℕ) (g : GestureType),
      s.raw = s.current → isSpecial g = true → g ≠ s.current →
        (rawGestureEvent t g s).current = s.current ∧
        (rawGestureEvent t g s).timer = some ⟨t + 300,
          TimerKind.confirm g s.current s.activeShape s.particleColor⟩) ∧
    (∀ (s : AppState) (t t' : ℕ) (g : GestureType),
      s.raw = s.current → isSpecial g = true → g ≠ s.current → t' < t + 300 →
        fireDue t' (rawGestureEvent t g s) = rawGestureEvent t g s) ∧
    (∀ (s : AppState) (t t' : ℕ) (g : GestureType),
      s.raw = s.current → isSpecial g = true → g ≠ s.current → t' < t + 300 →
        (rawGestureEvent t' s.current
            (fireDue t' (rawGestureEvent t g s))).current = s.current ∧
        (rawGestureEvent t' s.current
            (fireDue t' (rawGestureEvent t g s))).timer = Option.none ∧
        (rawGestureEvent t' s.current
            (fireDue t' (rawGestureEvent t g s))).activeShape =
          s.activeShape ∧
        (rawGestureEvent t' s.current
            (fireDue t' (rawGestureEvent t g s))).particleColor =
          s.particleColor) ∧
    (∀ (s : AppState) (t t'' : ℕ) (g : GestureType),
      s.raw = s.current → isSpecial g = true → g ≠ s.current →
      t + 300 ≤ t'' →
        (fireDue t'' (rawGestureEvent t g s)).current = g) ∧
    (∀ (s : AppState) (t t2 : ℕ) (n : GestureType),
      s.raw = s.current → isSpecial s.current = true → isSpecial n = false →
        (rawGestureEvent t n s).current = s.current ∧
        (rawGestureEvent t n s).timer = some ⟨t + 1000,
          TimerKind.release s.previousShape s.previousColor⟩ ∧
        (t2 < t + 1000 →
          fireDue t2 (rawGestureEvent t n s) = rawGestureEvent t n s) ∧
        (fireDue (t + 1000) (rawGestureEvent t n s)).current = n) ∧
    (∀ (s : AppState) (t : ℕ) (g : GestureType),
      s.raw = s.current → isSpecial g = false → isSpecial s.current = false →
      g ≠ s.current →
        rawGestureEvent t g s =
          { s with raw := g, current := g, timer := Option.none }) ∧
    (∀ (s : AppState) (t : ℕ) (g : GestureType), g ≠ s.raw →
        (rawGestureEvent t g s).timer = Option.none ∨
        (∃ k : TimerKind,
          (rawGestureEvent t g s).timer = some ⟨t + 300, k⟩) ∨
        (∃ k : TimerKind,
          (rawGestureEvent t g s).timer = some ⟨t + 1000, k⟩)) := by
  refine ⟨?_, ?_, ?_, ?_, ?_, ?_, ?_⟩
  · -- (1) arming
    intro s t g hstab hg hne
    rw [rawEvent_step t g s (by rw [hstab]; exact hne),
      effectBody_arm_confirm t _ hne hg]
    exact ⟨rfl, rfl⟩
  · -- (2) nothing fires before the deadline
    intro s t t' g hstab hg hne hlt
    rw [rawEvent_step t g s (by rw [hstab]; exact hne),
      effectBody_arm_confirm t _ hne hg]
    exact fireDue_early t' _ _ rfl hlt
  · -- (3) revert cancels without trace
    intro s t t' g hstab hg hne hlt
    rw [rawEvent_step t g s (by rw [hstab]; exact hne),
      effectBody_arm_confirm t _ hne hg,
      fireDue_early t' _ _ rfl hlt,
      rawEvent_step t' s.current _ (Ne.symm hne),
      effectBody_self t' _ rfl]
    exact ⟨rfl, rfl, rfl, rfl⟩
  · -- (4) held to the deadline: commit
    intro s t t'' g hstab hg hne hle
    rw [rawEvent_step t g s (by rw [hstab]; exact hne),
      effectBody_arm_confirm t _ hne hg,
      fireDue_fire t'' _ _ rfl hle]
    simp only [fireCallback]
    split_ifs with hcur <;>
      cases g <;>
      simp_all [applyGestureEffect, effectRun, effectBody, isSpecial,
        specialGestures]
  · -- (5) release timing
    intro s t t2 n hstab hcur hn
    have hnne : n ≠ s.current := by
      intro hh
      rw [hh, hcur] at hn
      exact absurd hn (by decide)
    rw [rawEvent_step t n s (by rw [hstab]; exact hnne),
      effectBody_arm_release t { s with raw := n, timer := Option.none }
        hnne hn hcur]
    refine ⟨rfl, rfl, fun h2 => fireDue_early t2 _ _ rfl h2, ?_⟩
    rw [fireDue_fire (t + 1000) _ _ rfl (le_refl _)]
    simp only [fireCallback]
    by_cases hn0 : n = GestureType.none
    · subst hn0
      unfold effectRun
      rw [effectBody_self _ _ rfl]
    · unfold effectRun
      rw [effectBody_base _ _ hn0 hn
        (show isSpecial GestureType.none = false from rfl)]
  · -- (6) base transitions are immediate
    intro s t g hstab hg hcur hne
    rw [rawEvent_step t g s (by rw [hstab]; exact hne),
      effectBody_base t { s with raw := g, timer := Option.none }
        hne hg hcur]
  · -- (7) single timer slot, freshly armed or none
    intro s t g hne
    rw [rawEvent_step t g s hne]
    unfold effectBody
    split_ifs
    · exact Or.inl rfl
    · exact Or.inr (Or.inl ⟨_, rfl⟩)
    · exact Or.inr (Or.inr ⟨_, rfl⟩)
    · exact Or.inl rfl

/-- A committed victory state (what the machine reaches after confirming a
victory raised from the initial state). -/
def committedVictoryState : AppState :=
  { raw := GestureType.victory, current := GestureType.victory,
    activeShape := ParticleShape.text, particleColor := "#ffd700",
    previousShape := ParticleShape.sphere, previousColor := "#4ade80",
    timer := Option.none }

/-- C3 witness: the timing theorem evaluated on concrete runs — victory fed
at 0 ms which is cancelled at 100 ms, or committed at 300 ms; a committed
victory released by none at 400 ms, untouched at 900 ms and reverted at
1400 ms; an immediate open transition; and the single-slot property for a
fist event. -/
theorem gestureDebounce_timing_witness :
    ((rawGestureEvent 0 GestureType.victory initAppState).current =
        GestureType.none ∧
      (rawGestureEvent 0 GestureType.victory initAppState).timer =
        some ⟨300, TimerKind.confirm GestureType.victory GestureType.none
          ParticleShape.sphere "#4ade80"⟩) ∧
    fireDue 100 (rawGestureEvent 0 GestureType.victory initAppState) =
      rawGestureEvent 0 GestureType.victory initAppState ∧
    (rawGestureEvent 100 GestureType.none
        (fireDue 100
          (rawGestureEvent 0 GestureType.victory initAppState))).current =
      GestureType.none ∧
    (fireDue 300 (rawGestureEvent 0 GestureType.victory initAppState)).current
      = GestureType.victory ∧
    ((rawGestureEvent 400 GestureType.none committedVictoryState).current =
        GestureType.victory ∧
      fireDue 900 (rawGestureEvent 400 GestureType.none
          committedVictoryState) =
        rawGestureEvent 400 GestureType.none committedVictoryState ∧
      (fireDue 1400 (rawGestureEvent 400 GestureType.none
          committedVictoryState)).current = GestureType.none) ∧
    rawGestureEvent 0 GestureType.openHand initAppState =
      { initAppState with
        raw := GestureType.openHand
        current := GestureType.openHand
        timer := Option.none } ∧
    ((rawGestureEvent 0 GestureType.fist initAppState).timer = Option.none ∨
      (∃ k : TimerKind, (rawGestureEvent 0 GestureType.fist
        initAppState).timer = some ⟨0 + 300, k⟩) ∨
      (∃ k : TimerKind, (rawGestureEvent 0 GestureType.fist
        initAppState).timer = some ⟨0 + 1000, k⟩)) := by
  refine ⟨?_, ?_, ?_, ?_, ?_, ?_, ?_⟩
  · exact gestureDebounce_timing.1 initAppState 0 GestureType.victory rfl
      (by decide) (by decide)
  · exact gestureDebounce_timing.2.1 initAppState 0 100 GestureType.victory
      rfl (by decide) (by decide) (by decide)
  · exact (gestureDebounce_timing.2.2.1 initAppState 0 100
      GestureType.victory rfl (by decide) (by decide) (by decide)).1
  · exact gestureDebounce_timing.2.2.2.1 initAppState 0 300
      GestureType.victory rfl (by decide) (by decide) (by decide)
  · have h5 := gestureDebounce_timing.2.2.2.2.1 committedVictoryState 400 900
      GestureType.none rfl (by decide) (by decide)
    exact ⟨h5.1, h5.2.2.1 (by decide), h5.2.2.2⟩
  · exact gestureDebounce_timing.2.2.2.2.2.1 initAppState 0 GestureType.openHand
      rfl (by decide) (by decide) (by decide)
  · exact gestureDebounce_timing.2.2.2.2.2.2 initAppState 0 GestureType.fist
      (by decide)

/-- C6: round-trip of a confirmed special-gesture excursion entered from a
non-special `currentGesture`.  The release callback itself sets
`currentGesture` to none and restores the snapshotted shape and color;
at confirmation the active shape/color are snapshotted into
`previousShape/previousColor` and the gesture's fixed mapping is applied
(victory → Text + #ffd700, love → Heart + #ec4899, thumbs_up → Fireworks +
#ef4444, point → Saturn + #06b6d4); when the 1000 ms release timer later
expires, both shape and color are restored to exactly the snapshotted
values (and `currentGesture` ends at the triggering base gesture — none
when the raw gesture is none). -/
theorem gestureExcursion_roundTrip :
    (∀ (pS : ParticleShape) (pC : String) (s' : AppState),
      (fireCallback (TimerKind.release pS pC) s').current =
        GestureType.none ∧
      (fireCallback (TimerKind.release pS pC) s').activeShape = pS ∧
      (fireCallback (TimerKind.release pS pC) s').particleColor = pC) ∧
    (∀ (s : AppState) (t0 t1 : ℕ) (g n : GestureType),
      s.raw = s.current → isSpecial s.current = false →
      isSpecial g = true → isSpecial n = false → t0 + 300 ≤ t1 →
      ((afterConfirm s t0 t1 g).current = g ∧
       (afterConfirm s t0 t1 g).previousShape = s.activeShape ∧
       (afterConfirm s t0 t1 g).previousColor = s.particleColor ∧
       (afterConfirm s t0 t1 g).activeShape = gestureShape g ∧
       (afterConfirm s t0 t1 g).particleColor = gestureColor g) ∧
      ((afterRelease (afterConfirm s t0 t1 g) t1 n).current = n ∧
       (afterRelease (afterConfirm s t0 t1 g) t1 n).activeShape =
         s.activeShape ∧
       (afterRelease (afterConfirm s t0 t1 g) t1 n).particleColor =
         s.particleColor)) := by
  refine ⟨fun pS pC s' => ⟨rfl, rfl, rfl⟩, ?_⟩
  intro s t0 t1 g n hstab hcur hg hn hle
  have hne : g ≠ s.current := by
    intro hh
    rw [hh, hcur] at hg
    exact absurd hg (by decide)
  have hC : afterConfirm s t0 t1 g =
      { s with
        raw := g
        current := g
        activeShape := gestureShape g
        particleColor := gestureColor g
        previousShape := s.activeShape
        previousColor := s.particleColor
        timer := Option.none } := by
    unfold afterConfirm
    rw [rawEvent_step t0 g s (by rw [hstab]; exact hne),
      effectBody_arm_confirm t0 _ hne hg,
      fireDue_fire t1 _ _ rfl hle]
    simp only [fireCallback]
    rw [if_neg (by simp [hcur])]
    unfold effectRun
    cases g with
    | victory =>
        rw [effectBody_self _ _ rfl]
        rfl
    | love =>
        rw [effectBody_self _ _ rfl]
        rfl
    | thumbs_up =>
        rw [effectBody_self _ _ rfl]
        rfl
    | point =>
        rw [effectBody_self _ _ rfl]
        rfl
    | none => exact absurd hg (by decide)
    | openHand => exact absurd hg (by decide)
    | fist => exact absurd hg (by decide)
  have hng : n ≠ g := by
    intro hh
    rw [hh] at hn
    rw [hn] at hg
    exact absurd hg (by decide)
  rw [hC]
  refine ⟨⟨rfl, rfl, rfl, rfl, rfl⟩, ?_⟩
  unfold afterRelease
  rw [rawEvent_step t1 n _ hng,
    effectBody_arm_release t1 _ hng hn hg,
    fireDue_fire (t1 + 1000) _ _ rfl (le_refl _)]
  simp only [fireCallback]
  unfold effectRun
  by_cases hn0 : n = GestureType.none
  · subst hn0
    rw [effectBody_self _ _ rfl]
    exact ⟨rfl, rfl, rfl⟩
  · rw [effectBody_base _ _ hn0 hn
      (show isSpecial GestureType.none = false from rfl)]
    exact ⟨rfl, rfl, rfl⟩

/-- C6 witness: a love excursion from the initial state, confirmed at
300 ms and released by an open gesture 1000 ms later, restores the sphere
shape and the green color. -/
theorem gestureExcursion_roundTrip_witness :
    (fireCallback (TimerKind.release ParticleShape.sphere "#4ade80")
        initAppState).current = GestureType.none ∧
    ((afterConfirm initAppState 0 300 GestureType.love).current =
        GestureType.love ∧
      (afterConfirm initAppState 0 300 GestureType.love).activeShape =
        gestureShape GestureType.love ∧
      (afterConfirm initAppState 0 300 GestureType.love).particleColor =
        gestureColor GestureType.love) ∧
    ((afterRelease (afterConfirm initAppState 0 300 GestureType.love) 300
        GestureType.openHand).current = GestureType.openHand ∧
      (afterRelease (afterConfirm initAppState 0 300 GestureType.love) 300
        GestureType.openHand).activeShape = initAppState.activeShape ∧
      (afterRelease (afterConfirm initAppState 0 300 GestureType.love) 300
        GestureType.openHand).particleColor = initAppState.particleColor) := by
  have h := gestureExcursion_roundTrip.2 initAppState 0 300 GestureType.love
    GestureType.openHand rfl (by decide) (by decide) (by decide) (by decide)
  exact ⟨(gestureExcursion_roundTrip.1 ParticleShape.sphere "#4ade80"
      initAppState).1,
    ⟨h.1.1, h.1.2.2.2.1, h.1.2.2.2.2⟩, ⟨h.2.1, h.2.2.1, h.2.2.2⟩⟩
